import Mathlib

/-!
Verification of the SQL query-engine module (`llama_index/indices/struct_store/sql_query.py`).

The Python module is shallowly embedded below: strings are `List Char`
(wrapped in `String` where convenient), Python `str.find` / slicing /
`str.strip` / `str.replace` are modelled by executable functions with the
same semantics, metadata dictionaries are modelled as `String → Option String`
maps, and each collaborator (language model, database, synthesizer,
retriever) is a record of abstract functions mirroring exactly the interface
the module consumes.  Fallible code paths (Python `raise ValueError`) are
modelled with `Except String`.
-/

set_option autoImplicit false

namespace SqlQuery

/-! ### Python string primitives -/

/-- Python whitespace characters relevant to `str.strip()` for ASCII text:
space, tab, newline, carriage return, vertical tab, form feed. -/
def isPyWhitespace (c : Char) : Bool :=
  c = ' ' || c = '\t' || c = '\n' || c = '\r' || c = Char.ofNat 11 || c = Char.ofNat 12

/-- The backtick character (codepoint 96), the single character contained in
the Python strip-set literal passed to `.strip` for code fences. -/
def backtickChar : Char := Char.ofNat 96

def isBacktick (c : Char) : Bool := c = backtickChar

/-- Remove trailing characters satisfying `p` (Python `str.rstrip` over a
character class). -/
def stripEnd (p : Char → Bool) (s : List Char) : List Char :=
  (s.reverse.dropWhile p).reverse

/-- Remove leading and trailing characters satisfying `p`: the semantics of
Python `str.strip(chars)` where `chars` is the set of characters satisfying
`p`. -/
def stripBoth (p : Char → Bool) (s : List Char) : List Char :=
  stripEnd p (s.dropWhile p)

/-- Python `str.strip()` (whitespace). -/
def stripWs (s : List Char) : List Char := stripBoth isPyWhitespace s

/-- Index of the first occurrence of `pat` in `s`, Python `s.find(pat)`
returning `none` instead of `-1`. -/
def findSub (pat : List Char) : List Char → Option Nat
  | [] => if pat.isEmpty then some 0 else none
  | c :: rest =>
    if pat.isPrefixOf (c :: rest) then some 0
    else (findSub pat rest).map (fun n => n + 1)

/-- Python `s.replace(pat, rep)` for a nonempty pattern `pat`: scan left to
right, replacing each (non-overlapping) occurrence of `pat` by `rep`.
After a match the scan resumes after the matched characters, so
`rest.drop (pat.length - 1)` consumes the remaining `pat.length - 1`
characters of the match. -/
def replaceAll (pat rep : List Char) : List Char → List Char
  | [] => []
  | c :: rest =>
    if pat.isPrefixOf (c :: rest) then
      rep ++ replaceAll pat rep (rest.drop (pat.length - 1))
    else
      c :: replaceAll pat rep rest
  termination_by s => s.length
  decreasing_by
  · simp only [List.length_cons, List.length_drop]
    omega
  · simp only [List.length_cons]
    omega

/-! ### SQL extraction (`_parse_response_to_sql`) -/

/-- The literal marker `"SQLQuery:"`. -/
def sqlQueryMarker : List Char := ("SQLQuery:").data

/-- The literal marker `"SQLResult:"`. -/
def sqlResultMarker : List Char := ("SQLResult:").data

/-- The final cleaning step of `BaseSQLTableQueryEngine._parse_response_to_sql`:
Python `response.strip().strip(three backticks).strip()`.  Note that Python
`str.strip(chars)` treats its argument as a character set, so the middle step
removes every leading and trailing backtick character. -/
def cleanSql (r : List Char) : List Char :=
  stripWs (stripBoth isBacktick (stripWs r))

/-- Embedding of `BaseSQLTableQueryEngine._parse_response_to_sql`:

    sql_query_start = response.find("SQLQuery:")
    if sql_query_start != -1:
        response = response[sql_query_start:]
        if response.startswith("SQLQuery:"):
            response = response[len("SQLQuery:"):]
    sql_result_start = response.find("SQLResult:")
    if sql_result_start != -1:
        response = response[:sql_result_start]
    return response.strip().strip(fence).strip()
-/
def parseResponseToSqlCore (response : List Char) : List Char :=
  let r1 :=
    match findSub sqlQueryMarker response with
    | some i =>
      let r := response.drop i
      if sqlQueryMarker.isPrefixOf r then r.drop sqlQueryMarker.length else r
    | none => response
  let r2 :=
    match findSub sqlResultMarker r1 with
    | some j => r1.take j
    | none => r1
  cleanSql r2

/-- String-level wrapper of `parseResponseToSqlCore`. -/
def parseResponseToSql (response : String) : String :=
  ⟨parseResponseToSqlCore response.data⟩

/-- The placeholder token `"[query_vector]"` used by `PGVectorSQLQueryEngine`. -/
def queryVectorToken : List Char := ("[query_vector]").data

/-- Embedding of `PGVectorSQLQueryEngine._parse_response_to_sql`.  Its
crop-and-clean code is textually identical to the base class version
(`parseResponseToSqlCore`); it then replaces every occurrence of
`[query_vector]` by the stringified query embedding.  `queryEmbeddingStr`
models `str(self._service_context.embed_model.get_query_embedding(...))`. -/
def pgParseResponseToSqlCore (queryEmbeddingStr : List Char) (response : List Char) : List Char :=
  let rawSqlStr := parseResponseToSqlCore response
  replaceAll queryVectorToken queryEmbeddingStr rawSqlStr

/-- Embedding of the legacy `NLStructStoreQueryEngine._parse_response_to_sql`:
crop at the first `"SQLResult:"` (no `"SQLQuery:"` handling, no fence
stripping) and strip whitespace. -/
def legacyParseResponseToSqlCore (response : List Char) : List Char :=
  let r :=
    match findSub sqlResultMarker response with
    | some j => response.take j
    | none => response
  stripWs r

/-- String-level wrapper of `legacyParseResponseToSqlCore`. -/
def legacyParseResponseToSql (response : String) : String :=
  ⟨legacyParseResponseToSqlCore response.data⟩

example : parseResponseToSql "SQLQuery: SELECT COUNT(*) FROM orders SQLResult: 5"
    = "SELECT COUNT(*) FROM orders" := by decide

example : parseResponseToSql "no markers at all " = "no markers at all" := by decide

/-! ### Metadata dictionaries and responses -/

/-- A Python `dict` used as a metadata mapping, modelled by its lookup
function. -/
def Metadata : Type := String → Option String

/-- Python `d[k] = v`. -/
def dictSet (d : Metadata) (k v : String) : Metadata :=
  fun q => if q = k then some v else d q

/-- Python `base.update(other)`: every entry of `other` is written into
`base`, so entries of `other` win on colliding keys. -/
def dictUpdate (base other : Metadata) : Metadata :=
  fun q =>
    match other q with
    | some v => some v
    | none => base q

/-- The empty metadata mapping. -/
def dictEmpty : Metadata := fun _q => none

/-- The `Response` schema object: a response text plus a metadata mapping. -/
structure Response where
  text : String
  metadata : Metadata

/-! ### Collaborator interfaces (consumed, not implemented, by the module) -/

/-- The `SQLDatabase` collaborator, with exactly the capabilities the module
consumes: `dialect`, `run_sql`, `get_single_table_info`,
`get_usable_table_names`. -/
structure SQLDatabase where
  dialect : String
  runSql : String → String × Metadata
  getSingleTableInfo : String → String
  getUsableTableNames : List String

/-- The language-model predictor collaborator.  `predict` models
`llm_predictor.predict(text_to_sql_prompt, query_str=.., schema=.., dialect=..)`
as a function of the three bound values; `apredict` is the asynchronous
equivalent (a separate abstract function, since the collaborator may differ). -/
structure LlmPredictor where
  predict : String → String → String → String
  apredict : String → String → String → String

/-- The response synthesizer obtained from `get_response_synthesizer` with the
partially bound synthesis prompt.  `synthesize` models
`synthesizer.synthesize(query=.., nodes=[TextNode(raw)])` as a function of
the bound SQL text, the query string and the raw execution text, producing a
`Response` with arbitrary text and metadata; `asynthesize` models the
asynchronous call. -/
structure Synthesizer where
  synthesize : String → String → String → Response
  asynthesize : String → String → String → Response

/-! ### The orchestrator (`BaseSQLTableQueryEngine._query` / `._aquery`) -/

/-- Embedding of `BaseSQLTableQueryEngine._query`, parametrized by the table
context block the (variant-specific) `_get_table_context` produced. -/
def baseQueryRun (db : SQLDatabase) (llm : LlmPredictor) (synth : Synthesizer)
    (synthesizeResponse : Bool) (tableDescStr : String) (queryStr : String) : Response :=
  let responseStr := llm.predict queryStr tableDescStr db.dialect
  let sqlQueryStr := parseResponseToSql responseStr
  let p := db.runSql sqlQueryStr
  let rawResponseStr := p.1
  let metadata := dictSet p.2 "sql_query" sqlQueryStr
  if synthesizeResponse then
    let resp := synth.synthesize sqlQueryStr queryStr rawResponseStr
    { text := resp.text, metadata := dictUpdate resp.metadata metadata }
  else
    { text := rawResponseStr, metadata := metadata }

/-- Embedding of `BaseSQLTableQueryEngine._aquery`: identical staging, but
stages 2 and 4 use the asynchronous collaborator calls. -/
def baseAQueryRun (db : SQLDatabase) (llm : LlmPredictor) (synth : Synthesizer)
    (synthesizeResponse : Bool) (tableDescStr : String) (queryStr : String) : Response :=
  let responseStr := llm.apredict queryStr tableDescStr db.dialect
  let sqlQueryStr := parseResponseToSql responseStr
  let p := db.runSql sqlQueryStr
  let rawResponseStr := p.1
  let metadata := dictSet p.2 "sql_query" sqlQueryStr
  if synthesizeResponse then
    let resp := synth.asynthesize sqlQueryStr queryStr rawResponseStr
    { text := resp.text, metadata := dictUpdate resp.metadata metadata }
  else
    { text := rawResponseStr, metadata := metadata }

/-- The SQL text the synchronous orchestrator executes for a given context
block and query. -/
def executedSql (db : SQLDatabase) (llm : LlmPredictor)
    (tableDescStr : String) (queryStr : String) : String :=
  parseResponseToSql (llm.predict queryStr tableDescStr db.dialect)

/-- The SQL text the asynchronous orchestrator executes. -/
def aexecutedSql (db : SQLDatabase) (llm : LlmPredictor)
    (tableDescStr : String) (queryStr : String) : String :=
  parseResponseToSql (llm.apredict queryStr tableDescStr db.dialect)

/-- The execution metadata of the synchronous path: the mapping returned by
`run_sql`, with the executed SQL written under the fixed key `"sql_query"`. -/
def executionMetadata (db : SQLDatabase) (llm : LlmPredictor)
    (tableDescStr : String) (queryStr : String) : Metadata :=
  dictSet (db.runSql (executedSql db llm tableDescStr queryStr)).2 "sql_query"
    (executedSql db llm tableDescStr queryStr)

/-- The execution metadata of the asynchronous path. -/
def aexecutionMetadata (db : SQLDatabase) (llm : LlmPredictor)
    (tableDescStr : String) (queryStr : String) : Metadata :=
  dictSet (db.runSql (aexecutedSql db llm tableDescStr queryStr)).2 "sql_query"
    (aexecutedSql db llm tableDescStr queryStr)

/-! ### Prompt validation and engine construction -/

/-- A `BasePromptTemplate` as consumed here: it exposes `template_vars`, the
ordered list of variable names the template declares.  (The extraction of
`template_vars` from a template string lives outside this module; per the
interface it yields the declared variable names, in order of appearance.) -/
structure BasePromptTemplate where
  templateVars : List String

/-- Modelled from the spec: `DEFAULT_RESPONSE_SYNTHESIS_PROMPT_V2` is built
from the in-source template literal, whose placeholders are `{query_str}`,
`{sql_query}`, `{context_str}` in that order; the prompt-template engine
(outside this module) exposes exactly those as `template_vars`. -/
def DEFAULT_RESPONSE_SYNTHESIS_PROMPT_V2 : BasePromptTemplate :=
  { templateVars := ["query_str", "sql_query", "context_str"] }

/-- The error message raised by `_validate_prompt`. -/
def validatePromptErrorMsg : String :=
  "response_synthesis_prompt must have the following template variables: query_str, sql_query, context_str"

/-- Embedding of `_validate_prompt`: raise `ValueError` when the supplied
prompt's `template_vars` differs from the default V2 prompt's
`template_vars`. -/
def validatePrompt (responseSynthesisPrompt : BasePromptTemplate) : Except String Unit :=
  if responseSynthesisPrompt.templateVars ≠ DEFAULT_RESPONSE_SYNTHESIS_PROMPT_V2.templateVars then
    Except.error validatePromptErrorMsg
  else
    Except.ok ()

/-- The construction-time configuration fixed by `BaseSQLTableQueryEngine.__init__`
that later queries read. -/
structure BaseEngineConfig where
  synthesizeResponse : Bool
  responseSynthesisPrompt : BasePromptTemplate

/-- Embedding of `BaseSQLTableQueryEngine.__init__`: default the synthesis
prompt to `DEFAULT_RESPONSE_SYNTHESIS_PROMPT_V2`, run `_validate_prompt`, and
only on success yield a constructed engine configuration (so a failing
validation happens before any query can be processed). -/
def mkBaseEngine (synthesizeResponse : Bool)
    (responseSynthesisPrompt : Option BasePromptTemplate) : Except String BaseEngineConfig :=
  let rsp := responseSynthesisPrompt.getD DEFAULT_RESPONSE_SYNTHESIS_PROMPT_V2
  match validatePrompt rsp with
  | Except.error e => Except.error e
  | Except.ok _ =>
    Except.ok { synthesizeResponse := synthesizeResponse, responseSynthesisPrompt := rsp }

/-! ### Fixed-list / all-tables context provider
(`NLSQLTableQueryEngine._get_table_context`) -/

/-- An entry of the caller-supplied `tables` list: either a sqlalchemy
`Table` object (only its `name` is consumed) or a plain name string. -/
inductive TableInput where
  | table (name : String)
  | str (s : String)
deriving DecidableEq

/-- Embedding of the body of the fixed-list loop that computes `table_str`:

    if isinstance(table, Table):
        table_str = str(table.name)
    if isinstance(table, str):
        table_str = table
    else:
        raise ValueError(f"Unknown table type: (table)")

The two conditionals are independent `if` statements (not `if`/`elif`), so
for a `Table` value the first branch assigns `table_str` but the second
conditional's `else` branch then raises; only plain strings get through. -/
def resolveTableInput : TableInput → Except String String
  | TableInput.table name =>
    Except.error ("Unknown table type: " ++ name)
  | TableInput.str s => Except.ok s

/-- Per-table formatting shared by the fixed-list and all-tables branches:
fetch `get_single_table_info(table_str)` and, when
`context_query_kwargs.get(table_str, None) is not None`, append
`" The table description is: "` plus the supplied description. -/
def tableInfoWithContext (db : SQLDatabase) (contextQueryKwargs : String → Option String)
    (tableStr : String) : String :=
  let tableInfo := db.getSingleTableInfo tableStr
  match contextQueryKwargs tableStr with
  | some desc => tableInfo ++ " The table description is: " ++ desc
  | none => tableInfo

/-- The fixed-list loop: iterate the caller-supplied entries in order,
resolving each entry to a name (raising on non-string entries per
`resolveTableInput`) and collecting the formatted per-table strings. -/
def buildContextStrs (db : SQLDatabase) (contextQueryKwargs : String → Option String) :
    List TableInput → Except String (List String)
  | [] => Except.ok []
  | tbl :: rest =>
    match resolveTableInput tbl with
    | Except.error e => Except.error e
    | Except.ok tableStr =>
      match buildContextStrs db contextQueryKwargs rest with
      | Except.error e => Except.error e
      | Except.ok restStrs =>
        Except.ok (tableInfoWithContext db contextQueryKwargs tableStr :: restStrs)

/-- Embedding of `NLSQLTableQueryEngine._get_table_context`.  Python's
`if self._tables:` is truthiness, so both `None` and an empty list select the
all-tables branch, which iterates `get_usable_table_names()` in the reported
order; the result is the per-table strings joined by a blank line. -/
def nlGetTableContext (db : SQLDatabase) (contextQueryKwargs : String → Option String)
    (tables : Option (List TableInput)) : Except String String :=
  match tables with
  | some (t :: ts) =>
    (buildContextStrs db contextQueryKwargs (t :: ts)).map
      (fun contextStrs => String.intercalate "\n\n" contextStrs)
  | _ =>
    Except.ok (String.intercalate "\n\n"
      (db.getUsableTableNames.map (tableInfoWithContext db contextQueryKwargs)))

/-! ### Retriever-variant context provider
(`SQLTableRetrieverQueryEngine._get_table_context`) -/

/-- A `SQLTableSchema` descriptor: a table name plus an optional free-text
context string. -/
structure SQLTableSchema where
  tableName : String
  contextStr : Option String

/-- Per-descriptor formatting for the retriever variant.  Python tests
`if table_schema_obj.context_str:` (truthiness), so both `None` and the
empty string skip the annotation. -/
def retrieverTableInfo (db : SQLDatabase) (obj : SQLTableSchema) : String :=
  let tableInfo := db.getSingleTableInfo obj.tableName
  match obj.contextStr with
  | some c => if c = "" then tableInfo else tableInfo ++ " The table description is: " ++ c
  | none => tableInfo

/-- Embedding of `SQLTableRetrieverQueryEngine._get_table_context`:
optionally seed the list with the construction-time context-string head
(`context_str_prefix`), then append one formatted entry per retrieved
descriptor, joining with blank lines.  `retrieved` is the sequence the
injected object retriever returned for this query. -/
def retrieverGetTableContext (db : SQLDatabase) (contextStrHead : Option String)
    (retrieved : List SQLTableSchema) : String :=
  let initStrs : List String :=
    match contextStrHead with
    | some p => [p]
    | none => []
  String.intercalate "\n\n" (initStrs ++ retrieved.map (retrieverTableInfo db))

/-- A whole `SQLTableRetrieverQueryEngine` query: assemble the retriever
context for the query, then run the shared orchestrator body. -/
def retrieverEngineQuery (db : SQLDatabase) (llm : LlmPredictor) (synth : Synthesizer)
    (synthesizeResponse : Bool) (contextStrHead : Option String)
    (retrieve : String → List SQLTableSchema) (queryStr : String) : Response :=
  baseQueryRun db llm synth synthesizeResponse
    (retrieverGetTableContext db contextStrHead (retrieve queryStr)) queryStr

/-! ### Legacy NL engine (`NLStructStoreQueryEngine`) -/

/-- The `SQLContextContainer` the legacy engine reads: an optional single
context string, or an optional context mapping whose values (in order) are
the per-table descriptions. -/
structure SQLContextContainer where
  contextStr : Option String
  contextDict : Option (List (String × String))

/-- Embedding of the legacy `NLStructStoreQueryEngine._get_table_context`:
use `context_str` when present, otherwise join the `context_dict` values
with blank lines, raising when the dict is absent. -/
def legacyGetTableContext (c : SQLContextContainer) : Except String String :=
  match c.contextStr with
  | some s => Except.ok s
  | none =>
    match c.contextDict with
    | none =>
      Except.error "context_dict must be provided. There is currently no table context."
    | some d => Except.ok (String.intercalate "\n\n" (d.map Prod.snd))

/-- The collaborators of the legacy engine.  `predictTextToSql` /
`apredictTextToSql` model `predict` / `apredict` on the text-to-SQL prompt
(bound values: query, schema, dialect); `predictSynthesis` models `predict`
on the legacy response-synthesis prompt (bound values: query, SQL, raw
result). -/
structure LegacyEnv where
  predictTextToSql : String → String → String → String
  apredictTextToSql : String → String → String → String
  predictSynthesis : String → String → String → String
  runSql : String → String × Metadata
  dialect : String

/-- Embedding of the legacy `NLStructStoreQueryEngine._query`: context, SQL
prediction, legacy parsing, execution, then an optional single-prompt
synthesis call gated by `synthesize_response`. -/
def legacyQuery (env : LegacyEnv) (ctx : SQLContextContainer)
    (synthesizeResponse : Bool) (queryStr : String) : Except String Response :=
  match legacyGetTableContext ctx with
  | Except.error e => Except.error e
  | Except.ok tableDescStr =>
    let responseStr := env.predictTextToSql queryStr tableDescStr env.dialect
    let sqlQueryStr := legacyParseResponseToSql responseStr
    let p := env.runSql sqlQueryStr
    let rawResponseStr := p.1
    let metadata := dictSet p.2 "sql_query" sqlQueryStr
    let text :=
      if synthesizeResponse then env.predictSynthesis queryStr sqlQueryStr rawResponseStr
      else rawResponseStr
    Except.ok { text := text, metadata := metadata }

/-- Embedding of the legacy `NLStructStoreQueryEngine._aquery`: context,
asynchronous SQL prediction, legacy parsing, execution — and no synthesis
branch at all: the raw execution text is always returned.  The
`synthesize_response` flag is read nowhere on this path. -/
def legacyAQuery (env : LegacyEnv) (ctx : SQLContextContainer)
    (_synthesizeResponse : Bool) (queryStr : String) : Except String Response :=
  match legacyGetTableContext ctx with
  | Except.error e => Except.error e
  | Except.ok tableDescStr =>
    let responseStr := env.apredictTextToSql queryStr tableDescStr env.dialect
    let sqlQueryStr := legacyParseResponseToSql responseStr
    let p := env.runSql sqlQueryStr
    Except.ok { text := p.1, metadata := dictSet p.2 "sql_query" sqlQueryStr }

/-! ### Helper lemmas -/

theorem isPrefixOf_append_self (l m : List Char) : l.isPrefixOf (l ++ m) = true := by
  rw [List.isPrefixOf_iff_prefix]
  exact List.prefix_append l m

theorem findSub_cons_none {pat : List Char} {c : Char} {rest : List Char}
    (h : findSub pat (c :: rest) = none) :
    pat.isPrefixOf (c :: rest) = false ∧ findSub pat rest = none := by
  rw [findSub] at h
  by_cases hp : pat.isPrefixOf (c :: rest) = true
  · rw [if_pos hp] at h
    cases h
  · rw [if_neg hp] at h
    exact ⟨Bool.not_eq_true _ |>.mp hp, Option.map_eq_none'.mp h⟩

theorem replaceAll_no_occurrence (pat rep : List Char) :
    ∀ s, findSub pat s = none → replaceAll pat rep s = s := by
  intro s
  induction s with
  | nil => intro _h; rw [replaceAll]
  | cons c rest ih =>
    intro h
    obtain ⟨hp, hrest⟩ := findSub_cons_none h
    rw [replaceAll, if_neg (by simp [hp]), ih hrest]

theorem replaceAll_first_occurrence (pat rep : List Char) (hne : pat ≠ []) :
    ∀ a b, findSub pat (a ++ pat ++ b) = some a.length →
      replaceAll pat rep (a ++ pat ++ b) = a ++ rep ++ replaceAll pat rep b := by
  intro a
  induction a with
  | nil =>
    intro b _h
    obtain ⟨p, ps, rfl⟩ : ∃ p ps, pat = p :: ps := by
      cases pat with
      | nil => exact absurd rfl hne
      | cons p ps => exact ⟨p, ps, rfl⟩
    have hpre : (p :: ps).isPrefixOf (p :: (ps ++ b)) = true := by
      have h0 := isPrefixOf_append_self (p :: ps) b
      simp only [List.cons_append] at h0
      exact h0
    have hdrop : (ps ++ b).drop ((p :: ps).length - 1) = b := by
      simp only [List.length_cons, Nat.add_sub_cancel]
      exact List.drop_left ps b
    simp only [List.nil_append, List.cons_append]
    rw [replaceAll, if_pos hpre, hdrop]
  | cons x a2 ih =>
    intro b h
    rw [List.cons_append, List.cons_append, findSub] at h
    by_cases hp : pat.isPrefixOf (x :: (a2 ++ pat ++ b)) = true
    · rw [if_pos hp] at h
      simp at h
    · rw [if_neg hp] at h
      obtain ⟨n, hn, hsucc⟩ := Option.map_eq_some'.mp h
      have hlen : n = a2.length := by
        simp only [List.length_cons] at hsucc
        omega
      subst hlen
      rw [List.cons_append, List.cons_append, replaceAll, if_neg hp, ih b hn]
      simp [List.cons_append, List.append_assoc]

theorem buildContextStrs_on_strings (db : SQLDatabase) (kw : String → Option String) :
    ∀ names : List String,
      buildContextStrs db kw (names.map TableInput.str)
        = Except.ok (names.map (tableInfoWithContext db kw)) := by
  intro names
  induction names with
  | nil => rfl
  | cons n ns ih =>
    simp only [List.map_cons, buildContextStrs, resolveTableInput, ih]

/-! ### Spec-side definition for the fence-stripping refinement check -/

/-- The exact three-character triple-backtick code-fence marker. -/
def tripleFence : List Char := [backtickChar, backtickChar, backtickChar]

/-- Spec-version cleaning, following the claim's words literally: trim
whitespace, strip a leading and a trailing triple-backtick code-fence marker
(the exact three-character sequence, when present), then trim again.  This is
deliberately the claim's description, not the source's character-set strip,
so the two can be compared. -/
def specCleanSql (r : List Char) : List Char :=
  let s0 := stripWs r
  let s1 := if tripleFence.isPrefixOf s0 then s0.drop 3 else s0
  let s2 :=
    if tripleFence.reverse.isPrefixOf s1.reverse then s1.take (s1.length - 3) else s1
  stripWs s2

/-! ### Claim theorems -/

/-- C1 (counterexample): the claim predicts that the extracted SQL is the
substring strictly between the markers, trimmed, with leading/trailing
triple-backtick fence markers stripped, then trimmed again.  On the concrete
completion below the between-marker substring trims to a string starting
with a single backtick; no triple-backtick fence is present, so the claim
predicts the backtick survives — but the code's character-set strip removes
it, so the code's output differs from the claim's predicted output. -/
theorem extraction_triple_fence_counterexample :
    ("SQLQuery: \x60SELECT 1 SQLResult: 5").data
        = [] ++ sqlQueryMarker ++ (" \x60SELECT 1 SQLResult: 5").data
    ∧ findSub sqlQueryMarker (("SQLQuery: \x60SELECT 1 SQLResult: 5").data)
        = some (List.length ([] : List Char))
    ∧ (" \x60SELECT 1 SQLResult: 5").data
        = (" \x60SELECT 1 ").data ++ sqlResultMarker ++ (" 5").data
    ∧ findSub sqlResultMarker ((" \x60SELECT 1 SQLResult: 5").data)
        = some ((" \x60SELECT 1 ").data.length)
    ∧ parseResponseToSql "SQLQuery: \x60SELECT 1 SQLResult: 5" = "SELECT 1"
    ∧ specCleanSql ((" \x60SELECT 1 ").data) = ("\x60SELECT 1").data
    ∧ ("SELECT 1").data ≠ ("\x60SELECT 1").data := by
  refine ⟨by decide, by decide, by decide, by decide, by decide, by decide, by decide⟩

/-- C1 (amended): for every completion in which the first occurrence of
`"SQLQuery:"` is at position `a.length` (decomposition `a ++ marker ++ b`)
and the first subsequent occurrence of `"SQLResult:"` starts at position
`m.length` of the remainder `b = m ++ marker ++ t`, extraction returns
exactly the between-marker substring `m`, trimmed, with ALL leading and
trailing backtick characters stripped (not only exact triple-backtick
fences), then trimmed again — i.e. `cleanSql m`. -/
theorem extraction_between_markers (a b m t : List Char)
    (h1 : findSub sqlQueryMarker (a ++ sqlQueryMarker ++ b) = some a.length)
    (h2 : b = m ++ sqlResultMarker ++ t)
    (h3 : findSub sqlResultMarker b = some m.length) :
    parseResponseToSqlCore (a ++ sqlQueryMarker ++ b) = cleanSql m := by
  have hd1 : (a ++ sqlQueryMarker ++ b).drop a.length = sqlQueryMarker ++ b := by
    rw [List.append_assoc]
    exact List.drop_left a _
  have hd2 : (sqlQueryMarker ++ b).drop sqlQueryMarker.length = b :=
    List.drop_left _ _
  have ht : b.take m.length = m := by
    rw [h2, List.append_assoc]
    exact List.take_left m _
  simp only [parseResponseToSqlCore, h1, hd1, isPrefixOf_append_self, if_true, hd2, h3, ht]

/-- C1 (witness for the amended theorem): both marker-position hypotheses
hold on a concrete completion, and extraction returns the cleaned
between-marker substring. -/
theorem extraction_between_markers_witness :
    parseResponseToSqlCore (([] : List Char) ++ sqlQueryMarker ++ (" SELECT 1 SQLResult: 5").data)
      = cleanSql ((" SELECT 1 ").data) :=
  extraction_between_markers [] ((" SELECT 1 SQLResult: 5").data)
    ((" SELECT 1 ").data) ((" 5").data) (by decide) (by decide) (by decide)

/-- C6: for every completion that does not contain `"SQLQuery:"`, the whole
completion is treated as the statement: if `"SQLResult:"` is also absent the
result is the whole completion cleaned, and if the first `"SQLResult:"`
occurrence is at position `m.length` (decomposition `m ++ marker ++ t`) the
result is the part before it, cleaned (trimmed, fence-stripped, trimmed). -/
theorem extraction_without_query_marker :
    (∀ s : List Char, findSub sqlQueryMarker s = none → findSub sqlResultMarker s = none →
      parseResponseToSqlCore s = cleanSql s)
    ∧ (∀ m t : List Char, findSub sqlQueryMarker (m ++ sqlResultMarker ++ t) = none →
      findSub sqlResultMarker (m ++ sqlResultMarker ++ t) = some m.length →
      parseResponseToSqlCore (m ++ sqlResultMarker ++ t) = cleanSql m) := by
  constructor
  · intro s h1 h2
    simp only [parseResponseToSqlCore, h1, h2]
  · intro m t h1 h2
    have ht : (m ++ sqlResultMarker ++ t).take m.length = m := by
      rw [List.append_assoc]
      exact List.take_left m _
    simp only [parseResponseToSqlCore, h1, h2, ht]

/-- C6 (witness): both cases hold on concrete completions lacking the
`"SQLQuery:"` marker. -/
theorem extraction_without_query_marker_witness :
    parseResponseToSqlCore (("  SELECT 7  ").data) = cleanSql (("  SELECT 7  ").data)
    ∧ parseResponseToSqlCore (("SELECT 7 ").data ++ sqlResultMarker ++ (" 9").data)
        = cleanSql (("SELECT 7 ").data) :=
  ⟨extraction_without_query_marker.1 (("  SELECT 7  ").data) (by decide) (by decide),
   extraction_without_query_marker.2 (("SELECT 7 ").data) ((" 9").data) (by decide) (by decide)⟩

/-- C5: the vector-aware extraction's placeholder substitution.  On strings
with no occurrence of `"[query_vector]"` the substitution is the identity
(hence idempotent there), and on a string whose first occurrence of the token
is at position `a.length` it substitutes the stringified embedding for that
occurrence and continues on the remainder — so every occurrence is replaced.
The last conjunct ties this to `PGVectorSQLQueryEngine._parse_response_to_sql`:
when the cleaned SQL contains no token, the vector-aware extraction agrees
with the base extraction. -/
theorem pg_vector_replacement (emb : List Char) :
    (∀ s : List Char, findSub queryVectorToken s = none →
      replaceAll queryVectorToken emb s = s)
    ∧ (∀ s : List Char, findSub queryVectorToken s = none →
      replaceAll queryVectorToken emb (replaceAll queryVectorToken emb s)
        = replaceAll queryVectorToken emb s)
    ∧ (∀ a b : List Char,
      findSub queryVectorToken (a ++ queryVectorToken ++ b) = some a.length →
      replaceAll queryVectorToken emb (a ++ queryVectorToken ++ b)
        = a ++ emb ++ replaceAll queryVectorToken emb b)
    ∧ (∀ resp : List Char,
      findSub queryVectorToken (parseResponseToSqlCore resp) = none →
      pgParseResponseToSqlCore emb resp = parseResponseToSqlCore resp) := by
  refine ⟨?_, ?_, ?_, ?_⟩
  · intro s h
    exact replaceAll_no_occurrence _ _ s h
  · intro s h
    rw [replaceAll_no_occurrence _ _ s h, replaceAll_no_occurrence _ _ s h]
  · intro a b h
    exact replaceAll_first_occurrence _ _ (by decide) a b h
  · intro resp h
    unfold pgParseResponseToSqlCore
    exact replaceAll_no_occurrence _ _ _ h

/-- C5 (witness): identity on a token-free SQL string; substitution at a
concrete occurrence; and agreement of the vector-aware extraction with the
base extraction on a token-free completion. -/
theorem pg_vector_replacement_witness :
    replaceAll queryVectorToken (("[0.1, 0.2]").data) (("SELECT 1").data) = ("SELECT 1").data
    ∧ replaceAll queryVectorToken (("[0.1, 0.2]").data)
        (("SELECT ").data ++ queryVectorToken ++ ((" FROM t").data))
      = ("SELECT ").data ++ ("[0.1, 0.2]").data
          ++ replaceAll queryVectorToken (("[0.1, 0.2]").data) ((" FROM t").data)
    ∧ pgParseResponseToSqlCore (("[0.1, 0.2]").data)
        (("SQLQuery: SELECT 1 SQLResult: 5").data)
      = parseResponseToSqlCore (("SQLQuery: SELECT 1 SQLResult: 5").data) :=
  ⟨(pg_vector_replacement (("[0.1, 0.2]").data)).1 (("SELECT 1").data) (by decide),
   (pg_vector_replacement (("[0.1, 0.2]").data)).2.2.1 (("SELECT ").data) ((" FROM t").data)
     (by decide),
   (pg_vector_replacement (("[0.1, 0.2]").data)).2.2.2 (("SQLQuery: SELECT 1 SQLResult: 5").data)
     (by decide)⟩

/-- C2: on both the synchronous and asynchronous orchestrator paths, with
synthesis enabled or disabled, the returned metadata holds the executed SQL
text under the fixed key `"sql_query"`; and when synthesis is enabled, every
entry of the execution metadata survives the merge into the synthesized
response's metadata unchanged (execution metadata wins on colliding keys). -/
theorem query_metadata_contains_sql (db : SQLDatabase) (llm : LlmPredictor)
    (synth : Synthesizer) (syn : Bool) (ctx q : String) :
    ((baseQueryRun db llm synth syn ctx q).metadata "sql_query"
        = some (executedSql db llm ctx q))
    ∧ ((baseAQueryRun db llm synth syn ctx q).metadata "sql_query"
        = some (aexecutedSql db llm ctx q))
    ∧ (∀ k v, executionMetadata db llm ctx q k = some v →
        (baseQueryRun db llm synth true ctx q).metadata k = some v)
    ∧ (∀ k v, aexecutionMetadata db llm ctx q k = some v →
        (baseAQueryRun db llm synth true ctx q).metadata k = some v) := by
  refine ⟨?_, ?_, ?_, ?_⟩
  · cases syn <;> simp [baseQueryRun, dictUpdate, dictSet, executedSql]
  · cases syn <;> simp [baseAQueryRun, dictUpdate, dictSet, aexecutedSql]
  · intro k v hk
    simp only [executionMetadata, executedSql] at hk
    simp only [baseQueryRun, if_true, dictUpdate, hk]
  · intro k v hk
    simp only [aexecutionMetadata, aexecutedSql] at hk
    simp only [baseAQueryRun, if_true, dictUpdate, hk]

/-- Example database collaborator for concrete witnesses. -/
def dbEx : SQLDatabase :=
  { dialect := "sqlite"
  , runSql := fun _sql => ("5", fun k => if k = "rows" then some "1" else none)
  , getSingleTableInfo := fun name => "Table " ++ name ++ " columns: id"
  , getUsableTableNames := ["orders", "users"] }

/-- Example language-model collaborator for concrete witnesses. -/
def llmEx : LlmPredictor :=
  { predict := fun _q _schema _dialect => "SQLQuery: SELECT COUNT(*) FROM orders SQLResult: 5"
  , apredict := fun _q _schema _dialect => "SQLQuery: SELECT COUNT(*) FROM orders SQLResult: 5" }

/-- Example synthesizer collaborator for concrete witnesses; its own metadata
tries to overwrite the `"sql_query"` key, so the merge direction is
observable. -/
def synthEx : Synthesizer :=
  { synthesize := fun _sql _q raw =>
      { text := "There are " ++ raw ++ " orders."
      , metadata := fun k => if k = "sql_query" then some "SYNTH-OVERWRITE" else none }
  , asynthesize := fun _sql _q raw =>
      { text := "There are " ++ raw ++ " orders."
      , metadata := fun k => if k = "sql_query" then some "SYNTH-OVERWRITE" else none } }

/-- C2 (witness): on concrete collaborators, a non-colliding execution
metadata entry survives synthesis, and the asynchronous path's metadata
holds the executed SQL under `"sql_query"` even though the synthesizer's
own metadata tried to overwrite that key. -/
theorem query_metadata_contains_sql_witness :
    (baseQueryRun dbEx llmEx synthEx true "ctx" "how many").metadata "rows" = some "1"
    ∧ (baseAQueryRun dbEx llmEx synthEx true "ctx" "how many").metadata "sql_query"
        = some "SELECT COUNT(*) FROM orders" :=
  ⟨(query_metadata_contains_sql dbEx llmEx synthEx true "ctx" "how many").2.2.1 "rows" "1"
     (by decide),
   ((query_metadata_contains_sql dbEx llmEx synthEx true "ctx" "how many").2.1).trans
     (by decide)⟩

/-- C7: with synthesis disabled, the synchronous orchestrator returns the raw
execution result text exactly, and its metadata is exactly the execution
metadata (the `run_sql` mapping with the `"sql_query"` key added), untouched
by any synthesis step. -/
theorem no_synthesis_returns_raw (db : SQLDatabase) (llm : LlmPredictor)
    (synth : Synthesizer) (ctx q : String) :
    (baseQueryRun db llm synth false ctx q).text
        = (db.runSql (executedSql db llm ctx q)).1
    ∧ (baseQueryRun db llm synth false ctx q).metadata
        = executionMetadata db llm ctx q :=
  ⟨rfl, rfl⟩

/-- C9: when the injected retriever returns zero descriptors and no
construction-time context string was configured, the context block is the
empty string, the whole query path is the orchestrator run on that empty
schema section (no error), and the generation stage really ran: the executed
SQL recorded in the metadata is parsed from the model's completion on the
empty schema. -/
theorem retriever_empty_context (db : SQLDatabase) (llm : LlmPredictor)
    (synth : Synthesizer) (syn : Bool) (q : String) :
    retrieverGetTableContext db none [] = ""
    ∧ retrieverEngineQuery db llm synth syn none (fun _q2 => []) q
        = baseQueryRun db llm synth syn "" q
    ∧ (retrieverEngineQuery db llm synth false none (fun _q2 => []) q).metadata "sql_query"
        = some (parseResponseToSql (llm.predict q "" db.dialect)) := by
  refine ⟨rfl, rfl, ?_⟩
  simp [retrieverEngineQuery, retrieverGetTableContext, baseQueryRun, dictSet,
    show ("\n\n".intercalate ([] : List String)) = "" from rfl]

/-- C3 (code behavior at the failing input): every table list whose first
entry is a `Table` object makes `NLSQLTableQueryEngine._get_table_context`
raise `ValueError("Unknown table type: ...")`, because the
`isinstance(table, str)` test is a second independent `if` whose `else`
branch fires for every non-string entry — the preceding normalization of the
`Table` to its name is dead.  The claim (and the declared parameter type
`Union[List[str], List[Table]]`) says `Table` entries are accepted. -/
theorem table_entry_raises_on_table_input (db : SQLDatabase)
    (kw : String → Option String) (name : String) (rest : List TableInput) :
    nlGetTableContext db kw (some (TableInput.table name :: rest))
      = Except.error ("Unknown table type: " ++ name) := by
  simp [nlGetTableContext, buildContextStrs, resolveTableInput, Except.map]

/-- C8: the fixed-list context provider emits one description per supplied
table name, in exactly the caller-specified order, joined by blank lines;
with no table list the all-tables branch emits them in exactly the order
`get_usable_table_names()` reports, joined the same way. -/
theorem table_context_order (db : SQLDatabase) (kw : String → Option String) :
    (∀ names : List String, names ≠ [] →
      nlGetTableContext db kw (some (names.map TableInput.str))
        = Except.ok (String.intercalate "\n\n" (names.map (tableInfoWithContext db kw))))
    ∧ nlGetTableContext db kw none
        = Except.ok (String.intercalate "\n\n"
            (db.getUsableTableNames.map (tableInfoWithContext db kw))) := by
  constructor
  · intro names hne
    cases names with
    | nil => exact absurd rfl hne
    | cons n ns =>
      have hb := buildContextStrs_on_strings db kw (n :: ns)
      simp only [List.map_cons] at hb ⊢
      simp only [nlGetTableContext, hb, Except.map]
  · rfl

/-- C8 (witness): on a concrete database, the caller-specified order
(reversed relative to the database-reported order) is preserved in the
joined block, and the all-tables branch follows the database-reported
order. -/
theorem table_context_order_witness :
    nlGetTableContext dbEx (fun _n => none)
        (some [TableInput.str "users", TableInput.str "orders"])
      = Except.ok "Table users columns: id\n\nTable orders columns: id" :=
  ((table_context_order dbEx (fun _n => none)).1 ["users", "orders"] (by decide)).trans
    (by rfl)

/-- C4: construction of the orchestrator engine with a custom synthesis
prompt whose declared variables are not (as a set) exactly
`{query_str, sql_query, context_str}` fails with the configuration error of
`_validate_prompt` — so no engine configuration exists and no query can ever
be processed; in particular a prompt missing `context_str` is rejected. -/
theorem construction_rejects_bad_prompt :
    (∀ (p : BasePromptTemplate) (syn : Bool),
      ¬ (∀ v : String, v ∈ p.templateVars ↔ v ∈ ["query_str", "sql_query", "context_str"]) →
      mkBaseEngine syn (some p) = Except.error validatePromptErrorMsg)
    ∧ (∀ (p : BasePromptTemplate) (syn : Bool),
      "context_str" ∉ p.templateVars →
      mkBaseEngine syn (some p) = Except.error validatePromptErrorMsg) := by
  have key : ∀ (p : BasePromptTemplate) (syn : Bool),
      p.templateVars ≠ ["query_str", "sql_query", "context_str"] →
      mkBaseEngine syn (some p) = Except.error validatePromptErrorMsg := by
    intro p syn hne
    simp [mkBaseEngine, validatePrompt, DEFAULT_RESPONSE_SYNTHESIS_PROMPT_V2, hne]
  constructor
  · intro p syn hset
    refine key p syn fun heq => hset ?_
    rw [heq]
    intro v
    exact Iff.rfl
  · intro p syn hmem
    refine key p syn fun heq => ?_
    rw [heq] at hmem
    exact hmem (by simp)

/-- C4 (witness): a prompt declaring only `query_str` and `sql_query`
(missing `context_str`) is rejected at construction. -/
theorem construction_rejects_bad_prompt_witness :
    mkBaseEngine true (some { templateVars := ["query_str", "sql_query"] })
      = Except.error validatePromptErrorMsg :=
  construction_rejects_bad_prompt.2 { templateVars := ["query_str", "sql_query"] } true
    (by decide)

/-- C10: the legacy NL engine's asynchronous path never synthesizes: the
`synthesize_response` flag is not read there, every successful asynchronous
query returns the raw execution text (with the `"sql_query"` metadata key
set), and whenever the synchronous and asynchronous model calls agree but
the synthesis call would reword the raw result, the two paths return
different response texts. -/
theorem legacy_aquery_never_synthesizes (env : LegacyEnv) (ctx : SQLContextContainer)
    (q : String) :
    legacyAQuery env ctx true q = legacyAQuery env ctx false q
    ∧ (∀ desc : String, legacyGetTableContext ctx = Except.ok desc →
        legacyAQuery env ctx true q = Except.ok
          { text := (env.runSql (legacyParseResponseToSql (env.apredictTextToSql q desc env.dialect))).1
          , metadata := dictSet
              (env.runSql (legacyParseResponseToSql (env.apredictTextToSql q desc env.dialect))).2
              "sql_query" (legacyParseResponseToSql (env.apredictTextToSql q desc env.dialect)) })
    ∧ (∀ desc : String, legacyGetTableContext ctx = Except.ok desc →
        env.apredictTextToSql = env.predictTextToSql →
        env.predictSynthesis q (legacyParseResponseToSql (env.predictTextToSql q desc env.dialect))
            (env.runSql (legacyParseResponseToSql (env.predictTextToSql q desc env.dialect))).1
          ≠ (env.runSql (legacyParseResponseToSql (env.predictTextToSql q desc env.dialect))).1 →
        ∀ r r2 : Response, legacyQuery env ctx true q = Except.ok r →
          legacyAQuery env ctx true q = Except.ok r2 → r.text ≠ r2.text) := by
  refine ⟨rfl, ?_, ?_⟩
  · intro desc hdesc
    simp [legacyAQuery, hdesc]
  · intro desc hdesc hap hne r r2 hr hr2
    rw [legacyQuery] at hr
    rw [legacyAQuery, hap] at hr2
    rw [hdesc] at hr hr2
    simp only [if_true, Except.ok.injEq] at hr hr2
    rw [← hr, ← hr2]
    exact hne

/-- Example legacy-engine collaborators for the C10 witness: synchronous and
asynchronous model calls agree, and the synthesis call rewords the raw
result. -/
def legacyEnvEx : LegacyEnv :=
  { predictTextToSql := fun _q _schema _dialect => "SELECT COUNT(*) FROM orders SQLResult: 5"
  , apredictTextToSql := fun _q _schema _dialect => "SELECT COUNT(*) FROM orders SQLResult: 5"
  , predictSynthesis := fun _q _sql raw => "There are " ++ raw ++ " orders."
  , runSql := fun _sql => ("5", dictEmpty)
  , dialect := "sqlite" }

/-- Example legacy context container holding a single context string. -/
def legacyCtxEx : SQLContextContainer :=
  { contextStr := some "Table orders columns: id", contextDict := none }

/-- C10 (witness): on the concrete legacy collaborators, the synchronous
query with synthesis enabled and the asynchronous query return different
response texts. -/
theorem legacy_aquery_never_synthesizes_witness :
    (match legacyQuery legacyEnvEx legacyCtxEx true "how many orders" with
      | Except.ok r => r.text
      | Except.error e => e)
    ≠ (match legacyAQuery legacyEnvEx legacyCtxEx true "how many orders" with
      | Except.ok r => r.text
      | Except.error e => e) :=
  (legacy_aquery_never_synthesizes legacyEnvEx legacyCtxEx "how many orders").2.2
    "Table orders columns: id" rfl rfl (by decide) _ _ rfl rfl

end SqlQuery
